import Mathlib

/-!
Verification of `tensorlayer/layers/dense/dorefa_dense.py`
(class `DorefaDenseLayer`, DoReFa-Net quantized dense layer).

The layer's `compile` method builds a symbolic tensor-computation graph
using the host framework: we embed the graph nodes that `compile` can
create as an inductive type `TensorExpr`, treating the external helper
functions (`cabs`, `quantize_active`, `quantize_weight`, `tf.matmul`,
`tf.nn.bias_add`) as opaque constructors, since the claims concern the
order and structure of graph construction, the error-handling control
flow, and shape bookkeeping — not the numeric content of the helpers
(which live outside this file's source and are out of scope per the spec).
-/

namespace DorefaDense

/-- Symbolic tensor-graph expressions.  `tfVariable nm sh d` models a call
`self._get_tf_variable(name=nm, shape=sh, initializer=..., dtype=d.dtype)`:
`sh = none` is the shape-less fallback creation, and `d` records which
tensor's `.dtype` attribute was read for the `dtype` argument (the third
field is bookkeeping metadata, not a data dependency of the variable). -/
inductive TensorExpr : Type where
  | input : List Nat → TensorExpr
  | cabs : TensorExpr → TensorExpr
  | quantize_active : TensorExpr → Nat → TensorExpr
  | quantize_weight : TensorExpr → Nat → TensorExpr
  | tfVariable : String → Option (List Nat) → TensorExpr → TensorExpr
  | matmul : TensorExpr → TensorExpr → TensorExpr
  | bias_add : TensorExpr → TensorExpr → TensorExpr
  | activation : TensorExpr → TensorExpr
deriving DecidableEq, Repr

/-- Static shape inference over the symbolic graph, mirroring the
framework's `get_shape()`: elementwise transforms preserve shape,
`matmul` of `[m, k]` by `[k, n]` gives `[m, n]`, `bias_add` of `[m, n]`
with `[n]` gives `[m, n]`; a shape-less variable has unknown shape. -/
def tensorShape : TensorExpr → Option (List Nat)
  | TensorExpr.input s => some s
  | TensorExpr.cabs t => tensorShape t
  | TensorExpr.quantize_active t _ => tensorShape t
  | TensorExpr.quantize_weight t _ => tensorShape t
  | TensorExpr.tfVariable _ sh _ => sh
  | TensorExpr.matmul a b =>
    match tensorShape a, tensorShape b with
    | some [m, k], some [k2, n] => if k = k2 then some [m, n] else none
    | _, _ => none
  | TensorExpr.bias_add a b =>
    match tensorShape a, tensorShape b with
    | some [m, n], some [n2] => if n = n2 then some [m, n] else none
    | _, _ => none
  | TensorExpr.activation t => tensorShape t

/-- `t.get_shape().ndims`: the rank, when the shape is known. -/
def ndims (t : TensorExpr) : Option Nat :=
  (tensorShape t).map List.length

/-- `int(t.get_shape()[-1])`: the last dimension of the shape. -/
def lastDim (t : TensorExpr) : Nat :=
  ((tensorShape t).getD []).getLastD 0

/-- Configuration of a `DorefaDenseLayer` instance, as stored by
`__init__`: `act` records whether an activation function was configured
(`act=None` gives `false`), `b_init` whether a bias initializer was
configured (`b_init=None` gives `false`; `__init__` stores it and
`compile` tests its truthiness). -/
structure DorefaDenseLayer : Type where
  bitW : Nat
  bitA : Nat
  n_units : Nat
  act : Bool
  gemmlowp_at_inference : Bool
  b_init : Bool
deriving DecidableEq, Repr

/-- Behaviour of the framework's variable creation for the bias, an
external collaborator: whether `_get_tf_variable` with an explicit
`shape=` raises, and whether the shape-less retry raises.  The source
wraps only the shaped bias creation in `try/except`. -/
structure VarEnv : Type where
  shaped_bias_raises : Bool
  shapeless_bias_raises : Bool
deriving DecidableEq, Repr

/-- The exceptions `compile` can surface: the generic
`Exception("The input dimension must be rank 2, ...")`, the
`NotImplementedError("TODO. ...")` for `gemmlowp_at_inference`, and an
exception propagating out of the shape-less bias creation. -/
inductive CompileError : Type where
  | rankError : CompileError
  | notImplementedError : CompileError
  | variableError : CompileError
deriving DecidableEq, Repr

/-- The `_temp_data` fields written by a successful `compile`:
`inputs` (overwritten with the quantized activations) and `outputs`. -/
structure CompileResult : Type where
  inputs : TensorExpr
  outputs : TensorExpr
deriving DecidableEq, Repr

/-- Modelled from the spec: the base class helper `_apply_activation`
(not part of this file's source) applies the configured activation
function when one is set and returns the tensor unchanged otherwise
("Output is passed through an optional activation function before being
returned"). -/
def apply_activation (act : Bool) (t : TensorExpr) : TensorExpr :=
  if act then TensorExpr.activation t else t

/-- `DorefaDenseLayer.compile`, line by line: rank-2 check, gemmlowp
check, `n_in` from the last input dimension, overwrite of
`_temp_data['inputs']` with `quantize_active(cabs(inputs), bitA)`,
creation of `W` with shape `(n_in, n_units)` and dtype read from the
(now quantized) inputs, `quantize_weight(W, bitW)`, `tf.matmul`, the
bias `try/except` with shape-less retry, `tf.nn.bias_add`, and finally
`_apply_activation`. -/
def compile (layer : DorefaDenseLayer) (env : VarEnv) (x : TensorExpr) :
    Except CompileError CompileResult :=
  if ndims x ≠ some 2 then
    Except.error CompileError.rankError
  else if layer.gemmlowp_at_inference then
    Except.error CompileError.notImplementedError
  else
    let n_in := lastDim x
    let qin := TensorExpr.quantize_active (TensorExpr.cabs x) layer.bitA
    let weight_matrix := TensorExpr.tfVariable "W" (some [n_in, layer.n_units]) qin
    let wq := TensorExpr.quantize_weight weight_matrix layer.bitW
    let out0 := TensorExpr.matmul qin wq
    if layer.b_init then
      if env.shaped_bias_raises then
        if env.shapeless_bias_raises then
          Except.error CompileError.variableError
        else
          let b := TensorExpr.tfVariable "b" none qin
          Except.ok ⟨qin, apply_activation layer.act (TensorExpr.bias_add out0 b)⟩
      else
        let b := TensorExpr.tfVariable "b" (some [layer.n_units]) qin
        Except.ok ⟨qin, apply_activation layer.act (TensorExpr.bias_add out0 b)⟩
    else
      Except.ok ⟨qin, apply_activation layer.act out0⟩

/-- All `(left, right)` operand pairs of `matmul` nodes occurring in a
graph (the dtype-bookkeeping field of variables is metadata and is not
traversed). -/
def matmulOperands : TensorExpr → List (TensorExpr × TensorExpr)
  | TensorExpr.input _ => []
  | TensorExpr.cabs t => matmulOperands t
  | TensorExpr.quantize_active t _ => matmulOperands t
  | TensorExpr.quantize_weight t _ => matmulOperands t
  | TensorExpr.tfVariable _ _ _ => []
  | TensorExpr.matmul a b => (a, b) :: (matmulOperands a ++ matmulOperands b)
  | TensorExpr.bias_add a b => matmulOperands a ++ matmulOperands b
  | TensorExpr.activation t => matmulOperands t

/-- The variables created in a graph, as `(name, requested shape)`
pairs, in graph order. -/
def varsCreated : TensorExpr → List (String × Option (List Nat))
  | TensorExpr.input _ => []
  | TensorExpr.cabs t => varsCreated t
  | TensorExpr.quantize_active t _ => varsCreated t
  | TensorExpr.quantize_weight t _ => varsCreated t
  | TensorExpr.tfVariable nm sh _ => [(nm, sh)]
  | TensorExpr.matmul a b => varsCreated a ++ varsCreated b
  | TensorExpr.bias_add a b => varsCreated a ++ varsCreated b
  | TensorExpr.activation t => varsCreated t

/-- The tensors whose `.dtype` was read when creating each variable in a
graph. -/
def varsDtypeFrom : TensorExpr → List TensorExpr
  | TensorExpr.input _ => []
  | TensorExpr.cabs t => varsDtypeFrom t
  | TensorExpr.quantize_active t _ => varsDtypeFrom t
  | TensorExpr.quantize_weight t _ => varsDtypeFrom t
  | TensorExpr.tfVariable _ _ d => [d]
  | TensorExpr.matmul a b => varsDtypeFrom a ++ varsDtypeFrom b
  | TensorExpr.bias_add a b => varsDtypeFrom a ++ varsDtypeFrom b
  | TensorExpr.activation t => varsDtypeFrom t

/-- Whether the root node of a graph is a `matmul` or a `bias_add`
(a "post-multiply" tensor). -/
def isMatmulOrBiasAdd : TensorExpr → Bool
  | TensorExpr.matmul _ _ => true
  | TensorExpr.bias_add _ _ => true
  | _ => false

end DorefaDense

namespace DorefaDense

/-- Characterization of every successful `compile`: the gemmlowp flag
was off, the input was rank 2, the stored inputs are the quantized
activations, and the stored outputs are the activation applied to the
matmul (plus `bias_add` when a bias initializer is configured, the bias
shape depending on whether the shaped creation raised). -/
theorem compile_ok_spec (layer : DorefaDenseLayer) (env : VarEnv) (x : TensorExpr)
    (r : CompileResult) (h : compile layer env x = Except.ok r) :
    layer.gemmlowp_at_inference = false ∧ ndims x = some 2 ∧
    r.inputs = TensorExpr.quantize_active (TensorExpr.cabs x) layer.bitA ∧
    ((layer.b_init = false ∧
        r.outputs = apply_activation layer.act
          (TensorExpr.matmul r.inputs
            (TensorExpr.quantize_weight
              (TensorExpr.tfVariable "W" (some [lastDim x, layer.n_units]) r.inputs)
              layer.bitW))) ∨
      (layer.b_init = true ∧
        r.outputs = apply_activation layer.act
          (TensorExpr.bias_add
            (TensorExpr.matmul r.inputs
              (TensorExpr.quantize_weight
                (TensorExpr.tfVariable "W" (some [lastDim x, layer.n_units]) r.inputs)
                layer.bitW))
            (TensorExpr.tfVariable "b"
              (if env.shaped_bias_raises then none else some [layer.n_units])
              r.inputs)))) := by
  by_cases h2 : ndims x = some 2
  · by_cases hg : layer.gemmlowp_at_inference = true
    · simp [compile, h2, hg] at h
    · rw [Bool.not_eq_true] at hg
      rcases env with ⟨sb, slb⟩
      cases hb : layer.b_init <;> cases sb <;> cases slb <;>
        simp [compile, h2, hb, hg] at h <;>
      · subst h
        simp [hb, hg, h2]
  · simp [compile, h2] at h

/-- C1: with `gemmlowp_at_inference = True`, the layer never compiles
successfully, and on any rank-2 input the first forward compilation
raises `NotImplementedError` (construction itself stores the flag and
cannot raise), so no computation is ever performed with the flag
enabled. -/
theorem gemmlowp_flag_raises_not_implemented
    (layer : DorefaDenseLayer) (env : VarEnv) (x : TensorExpr)
    (hg : layer.gemmlowp_at_inference = true) :
    (∀ r : CompileResult, compile layer env x ≠ Except.ok r) ∧
    (ndims x = some 2 →
      compile layer env x = Except.error CompileError.notImplementedError) := by
  constructor
  · intro r hr
    by_cases h2 : ndims x = some 2 <;> simp [compile, h2, hg] at hr
  · intro h2
    simp [compile, h2, hg]

/-- C1 witness: a concrete gemmlowp-enabled layer on a concrete rank-2
input compiles to `NotImplementedError`. -/
theorem gemmlowp_flag_raises_not_implemented_witness :
    compile ⟨1, 3, 100, false, true, true⟩ ⟨false, false⟩ (TensorExpr.input [4, 5]) =
      Except.error CompileError.notImplementedError :=
  (gemmlowp_flag_raises_not_implemented ⟨1, 3, 100, false, true, true⟩ ⟨false, false⟩
    (TensorExpr.input [4, 5]) rfl).2 rfl

/-- C2: any input whose rank is not 2 makes `compile` raise the generic
rank exception, and any rank-2 input with the gemmlowp flag disabled
never raises that exception. -/
theorem rank_two_required
    (layer : DorefaDenseLayer) (env : VarEnv) (x : TensorExpr) :
    (ndims x ≠ some 2 → compile layer env x = Except.error CompileError.rankError) ∧
    (ndims x = some 2 → layer.gemmlowp_at_inference = false →
      compile layer env x ≠ Except.error CompileError.rankError) := by
  constructor
  · intro h
    simp [compile, h]
  · intro h2 hg hr
    rcases env with ⟨sb, slb⟩
    cases hb : layer.b_init <;> cases sb <;> cases slb <;>
      simp [compile, h2, hg, hb] at hr

/-- C2 witness: a rank-1 input raises the rank error, and the same
layer on a rank-2 input does not. -/
theorem rank_two_required_witness :
    compile ⟨1, 3, 100, false, false, true⟩ ⟨false, false⟩ (TensorExpr.input [5]) =
        Except.error CompileError.rankError ∧
      compile ⟨1, 3, 100, false, false, true⟩ ⟨false, false⟩ (TensorExpr.input [4, 5]) ≠
        Except.error CompileError.rankError :=
  ⟨(rank_two_required ⟨1, 3, 100, false, false, true⟩ ⟨false, false⟩
      (TensorExpr.input [5])).1 (by decide),
    (rank_two_required ⟨1, 3, 100, false, false, true⟩ ⟨false, false⟩
      (TensorExpr.input [4, 5])).2 rfl rfl⟩

/-- C3: in every successfully compiled graph there is exactly one
matrix multiply, and its activation (left) operand is
`quantize_active(cabs(input), bitA)`: `cabs` is applied to the input
first, `quantize_active` with the configured `bitA` second, and the
result feeds the multiply. -/
theorem activation_quantization_cabs_then_quantize_active
    (layer : DorefaDenseLayer) (env : VarEnv) (s : List Nat) (r : CompileResult)
    (h : compile layer env (TensorExpr.input s) = Except.ok r) :
    (matmulOperands r.outputs).map Prod.fst =
      [TensorExpr.quantize_active (TensorExpr.cabs (TensorExpr.input s)) layer.bitA] := by
  obtain ⟨-, -, hin, hout⟩ := compile_ok_spec layer env (TensorExpr.input s) r h
  rcases hout with ⟨-, ho⟩ | ⟨-, ho⟩ <;> rw [hin] at ho <;> rw [ho] <;>
    cases layer.act <;> simp [apply_activation, matmulOperands]

/-- C3 witness: on a concrete layer and rank-2 input, the sole matmul
left operand is the quantized clipped input. -/
theorem activation_quantization_cabs_then_quantize_active_witness :
    (matmulOperands
        (CompileResult.outputs
          ⟨TensorExpr.quantize_active (TensorExpr.cabs (TensorExpr.input [4, 5])) 3,
            TensorExpr.bias_add
              (TensorExpr.matmul
                (TensorExpr.quantize_active (TensorExpr.cabs (TensorExpr.input [4, 5])) 3)
                (TensorExpr.quantize_weight
                  (TensorExpr.tfVariable "W" (some [5, 100])
                    (TensorExpr.quantize_active (TensorExpr.cabs (TensorExpr.input [4, 5])) 3))
                  1))
              (TensorExpr.tfVariable "b" (some [100])
                (TensorExpr.quantize_active (TensorExpr.cabs (TensorExpr.input [4, 5])) 3))⟩)).map
        Prod.fst =
      [TensorExpr.quantize_active (TensorExpr.cabs (TensorExpr.input [4, 5])) 3] :=
  activation_quantization_cabs_then_quantize_active
    ⟨1, 3, 100, false, false, true⟩ ⟨false, false⟩ [4, 5] _ rfl

/-- C4: in every successfully compiled graph the weight operand of the
(sole) matrix multiply is `quantize_weight` with the configured `bitW`
applied to the variable created as `W` with shape `(n_in, n_units)`
through the variable-creation mechanism, and no multiply operand is a
bare (unquantized) variable. -/
theorem weight_quantized_before_matmul
    (layer : DorefaDenseLayer) (env : VarEnv) (s : List Nat) (r : CompileResult)
    (h : compile layer env (TensorExpr.input s) = Except.ok r) :
    (matmulOperands r.outputs).map Prod.snd =
      [TensorExpr.quantize_weight
        (TensorExpr.tfVariable "W" (some [s.getLastD 0, layer.n_units])
          (TensorExpr.quantize_active (TensorExpr.cabs (TensorExpr.input s)) layer.bitA))
        layer.bitW] ∧
    ∀ p ∈ matmulOperands r.outputs, ∀ nm : String, ∀ sh : Option (List Nat),
      ∀ d : TensorExpr, p.2 ≠ TensorExpr.tfVariable nm sh d := by
  obtain ⟨-, -, hin, hout⟩ := compile_ok_spec layer env (TensorExpr.input s) r h
  rcases hout with ⟨-, ho⟩ | ⟨-, ho⟩ <;> rw [hin] at ho <;> rw [ho] <;>
    cases layer.act <;>
    simp [apply_activation, matmulOperands, lastDim, tensorShape]

/-- C4 witness: concrete instance of the weight-quantization claim. -/
theorem weight_quantized_before_matmul_witness :
    (matmulOperands
        (TensorExpr.matmul
          (TensorExpr.quantize_active (TensorExpr.cabs (TensorExpr.input [4, 5])) 3)
          (TensorExpr.quantize_weight
            (TensorExpr.tfVariable "W" (some [5, 7])
              (TensorExpr.quantize_active (TensorExpr.cabs (TensorExpr.input [4, 5])) 3))
            1))).map Prod.snd =
      [TensorExpr.quantize_weight
        (TensorExpr.tfVariable "W" (some [5, 7])
          (TensorExpr.quantize_active (TensorExpr.cabs (TensorExpr.input [4, 5])) 3))
        1] :=
  (weight_quantized_before_matmul ⟨1, 3, 7, false, false, false⟩ ⟨false, false⟩
    [4, 5] _ rfl).1

/-- C5: when a bias initializer is configured, the compiled output adds
the bias variable (a bare `tfVariable`, untouched by any quantization
node) after the matrix multiply; when `b_init` is `None`, the only
variable created is the weight and the output is the activation applied
to the bare multiply result. -/
theorem bias_post_multiply_unquantized_and_optional
    (layer : DorefaDenseLayer) (env : VarEnv) (s : List Nat) (r : CompileResult)
    (h : compile layer env (TensorExpr.input s) = Except.ok r) :
    (layer.b_init = true → ∃ sh : Option (List Nat),
      r.outputs = apply_activation layer.act
        (TensorExpr.bias_add
          (TensorExpr.matmul r.inputs
            (TensorExpr.quantize_weight
              (TensorExpr.tfVariable "W" (some [s.getLastD 0, layer.n_units]) r.inputs)
              layer.bitW))
          (TensorExpr.tfVariable "b" sh r.inputs))) ∧
    (layer.b_init = false →
      varsCreated r.outputs = [("W", some [s.getLastD 0, layer.n_units])] ∧
      r.outputs = apply_activation layer.act
        (TensorExpr.matmul r.inputs
          (TensorExpr.quantize_weight
            (TensorExpr.tfVariable "W" (some [s.getLastD 0, layer.n_units]) r.inputs)
            layer.bitW))) := by
  obtain ⟨-, -, hin, hout⟩ := compile_ok_spec layer env (TensorExpr.input s) r h
  rcases hout with ⟨hb, ho⟩ | ⟨hb, ho⟩
  · refine ⟨fun hbt => absurd (hb ▸ hbt) (by simp), fun _ => ⟨?_, ?_⟩⟩
    · rw [ho, hin]
      cases layer.act <;>
        simp [apply_activation, varsCreated, lastDim, tensorShape]
    · rw [ho]
      simp [lastDim, tensorShape]
  · refine ⟨fun _ => ?_, fun hbf => absurd (hb ▸ hbf) (by simp)⟩
    exact ⟨if env.shaped_bias_raises then none else some [layer.n_units],
      by rw [ho]; simp [lastDim, tensorShape]⟩

/-- C5 witness: with `b_init = None` on a concrete layer, only the
weight variable is created and the output is the activation of the bare
multiply. -/
theorem bias_post_multiply_unquantized_and_optional_witness :
    varsCreated
        (TensorExpr.matmul
          (TensorExpr.quantize_active (TensorExpr.cabs (TensorExpr.input [4, 5])) 3)
          (TensorExpr.quantize_weight
            (TensorExpr.tfVariable "W" (some [5, 7])
              (TensorExpr.quantize_active (TensorExpr.cabs (TensorExpr.input [4, 5])) 3))
            1)) = [("W", some [5, 7])] :=
  ((bias_post_multiply_unquantized_and_optional ⟨1, 3, 7, false, false, false⟩
      ⟨false, false⟩ [4, 5] _ rfl).2 rfl).1

/-- C6: when the shape-qualified bias creation raises, `compile`
retries the creation with no shape (the variable recorded with
`shape = none`), and the compilation succeeds exactly when the
shape-less creation succeeds (otherwise that exception propagates). -/
theorem bias_creation_shapeless_fallback
    (layer : DorefaDenseLayer) (env : VarEnv) (s : List Nat)
    (hs : s.length = 2) (hg : layer.gemmlowp_at_inference = false)
    (hb : layer.b_init = true) (hsb : env.shaped_bias_raises = true) :
    (env.shapeless_bias_raises = false →
      ∃ r : CompileResult, compile layer env (TensorExpr.input s) = Except.ok r ∧
        varsCreated r.outputs =
          [("W", some [s.getLastD 0, layer.n_units]), ("b", none)]) ∧
    (env.shapeless_bias_raises = true →
      compile layer env (TensorExpr.input s) =
        Except.error CompileError.variableError) := by
  constructor
  · intro hsl
    refine ⟨⟨TensorExpr.quantize_active (TensorExpr.cabs (TensorExpr.input s)) layer.bitA,
      apply_activation layer.act
        (TensorExpr.bias_add
          (TensorExpr.matmul
            (TensorExpr.quantize_active (TensorExpr.cabs (TensorExpr.input s)) layer.bitA)
            (TensorExpr.quantize_weight
              (TensorExpr.tfVariable "W" (some [s.getLastD 0, layer.n_units])
                (TensorExpr.quantize_active (TensorExpr.cabs (TensorExpr.input s)) layer.bitA))
              layer.bitW))
          (TensorExpr.tfVariable "b" none
            (TensorExpr.quantize_active (TensorExpr.cabs (TensorExpr.input s)) layer.bitA)))⟩,
      ?_, ?_⟩
    · simp [compile, ndims, tensorShape, lastDim, hs, hg, hb, hsb, hsl]
    · cases layer.act <;>
        simp [apply_activation, varsCreated, lastDim, tensorShape]
  · intro hsl
    simp [compile, ndims, tensorShape, hs, hg, hb, hsb, hsl]

/-- C6 witness: concrete layer where shaped bias creation raises and
the shape-less retry succeeds: compilation succeeds with the bias
variable created shape-less. -/
theorem bias_creation_shapeless_fallback_witness :
    ∃ r : CompileResult,
      compile ⟨1, 3, 100, false, false, true⟩ ⟨true, false⟩ (TensorExpr.input [4, 5]) =
          Except.ok r ∧
        varsCreated r.outputs = [("W", some [5, 100]), ("b", none)] :=
  (bias_creation_shapeless_fallback ⟨1, 3, 100, false, false, true⟩ ⟨true, false⟩
    [4, 5] rfl rfl rfl rfl).1 rfl

/-- C7: the stored output of every successful compilation is
`_apply_activation` applied to a post-multiply tensor (a `matmul` or
`bias_add` node): with no configured activation the tensor passes
through unchanged, with one configured the activation node is the root
of the graph, i.e. the last operation applied. -/
theorem activation_applied_last
    (layer : DorefaDenseLayer) (env : VarEnv) (x : TensorExpr) (r : CompileResult)
    (h : compile layer env x = Except.ok r) :
    ∃ pre : TensorExpr, isMatmulOrBiasAdd pre = true ∧
      r.outputs = apply_activation layer.act pre ∧
      (layer.act = false → r.outputs = pre) ∧
      (layer.act = true → r.outputs = TensorExpr.activation pre) := by
  obtain ⟨-, -, -, hout⟩ := compile_ok_spec layer env x r h
  rcases hout with ⟨-, ho⟩ | ⟨-, ho⟩
  · refine ⟨_, ?_, ho, fun ha => ?_, fun ha => ?_⟩
    · rfl
    · rw [ho]; simp [apply_activation, ha]
    · rw [ho]; simp [apply_activation, ha]
  · refine ⟨_, ?_, ho, fun ha => ?_, fun ha => ?_⟩
    · rfl
    · rw [ho]; simp [apply_activation, ha]
    · rw [ho]; simp [apply_activation, ha]

/-- C7 witness: a concrete layer with a configured activation produces
an activation node as the root of the output graph. -/
theorem activation_applied_last_witness :
    ∃ pre : TensorExpr, isMatmulOrBiasAdd pre = true ∧
      TensorExpr.activation
          (TensorExpr.matmul
            (TensorExpr.quantize_active (TensorExpr.cabs (TensorExpr.input [4, 5])) 3)
            (TensorExpr.quantize_weight
              (TensorExpr.tfVariable "W" (some [5, 7])
                (TensorExpr.quantize_active (TensorExpr.cabs (TensorExpr.input [4, 5])) 3))
              1)) = apply_activation true pre := by
  obtain ⟨pre, h1, h2, -, -⟩ :=
    activation_applied_last ⟨1, 3, 7, true, false, false⟩ ⟨false, false⟩
      (TensorExpr.input [4, 5]) _ rfl
  exact ⟨pre, h1, h2⟩

/-- C8: on a rank-2 input of shape `batch × nIn` (with the shaped bias
creation succeeding) the compiled output has static shape
`batch × n_units`; the weight variable is created with shape
`(nIn, n_units)` and the bias, when configured, with shape
`(n_units)`. -/
theorem output_shape_batch_by_n_units
    (layer : DorefaDenseLayer) (env : VarEnv) (batch nIn : Nat) (r : CompileResult)
    (hsb : env.shaped_bias_raises = false)
    (h : compile layer env (TensorExpr.input [batch, nIn]) = Except.ok r) :
    tensorShape r.outputs = some [batch, layer.n_units] ∧
    varsCreated r.outputs =
      ("W", some [nIn, layer.n_units]) ::
        (if layer.b_init then [("b", some [layer.n_units])] else []) := by
  obtain ⟨-, -, hin, hout⟩ := compile_ok_spec layer env (TensorExpr.input [batch, nIn]) r h
  rcases hout with ⟨hb, ho⟩ | ⟨hb, ho⟩ <;> rw [hin] at ho <;> rw [ho] <;>
    cases layer.act <;>
    simp [apply_activation, tensorShape, varsCreated, lastDim, hb, hsb]

/-- C8 witness: a concrete 4 × 5 input through a 7-unit layer yields a
4 × 7 output, with the weight created as `(5, 7)` and the bias as
`(7)`. -/
theorem output_shape_batch_by_n_units_witness :
    tensorShape
        (CompileResult.outputs
          ⟨TensorExpr.quantize_active (TensorExpr.cabs (TensorExpr.input [4, 5])) 3,
            TensorExpr.bias_add
              (TensorExpr.matmul
                (TensorExpr.quantize_active (TensorExpr.cabs (TensorExpr.input [4, 5])) 3)
                (TensorExpr.quantize_weight
                  (TensorExpr.tfVariable "W" (some [5, 7])
                    (TensorExpr.quantize_active (TensorExpr.cabs (TensorExpr.input [4, 5])) 3))
                  1))
              (TensorExpr.tfVariable "b" (some [7])
                (TensorExpr.quantize_active (TensorExpr.cabs (TensorExpr.input [4, 5])) 3))⟩) =
      some [4, 7] :=
  (output_shape_batch_by_n_units ⟨1, 3, 7, false, false, true⟩ ⟨false, false⟩
    4 5 _ rfl rfl).1

/-- C10: every successful compilation overwrites the stored inputs with
the quantized activations `quantize_active(cabs(x), bitA)` — a tensor
distinct from the original input — and the later steps read the
overwritten value: the matmul left operand is the stored (quantized)
inputs, and every variable creation reads its `dtype` from them. -/
theorem inputs_overwritten_with_quantized
    (layer : DorefaDenseLayer) (env : VarEnv) (s : List Nat) (r : CompileResult)
    (h : compile layer env (TensorExpr.input s) = Except.ok r) :
    r.inputs =
        TensorExpr.quantize_active (TensorExpr.cabs (TensorExpr.input s)) layer.bitA ∧
      r.inputs ≠ TensorExpr.input s ∧
      (matmulOperands r.outputs).map Prod.fst = [r.inputs] ∧
      ∀ d ∈ varsDtypeFrom r.outputs, d = r.inputs := by
  obtain ⟨-, -, hin, hout⟩ := compile_ok_spec layer env (TensorExpr.input s) r h
  refine ⟨hin, by rw [hin]; simp, ?_, ?_⟩ <;>
    rcases hout with ⟨-, ho⟩ | ⟨-, ho⟩ <;> rw [ho, hin] <;>
    cases layer.act <;>
    simp [apply_activation, matmulOperands, varsDtypeFrom]

/-- C10 witness: concrete instance showing the stored inputs after
compilation are the quantized activations, not the original input. -/
theorem inputs_overwritten_with_quantized_witness :
    CompileResult.inputs
        ⟨TensorExpr.quantize_active (TensorExpr.cabs (TensorExpr.input [4, 5])) 3,
          TensorExpr.matmul
            (TensorExpr.quantize_active (TensorExpr.cabs (TensorExpr.input [4, 5])) 3)
            (TensorExpr.quantize_weight
              (TensorExpr.tfVariable "W" (some [5, 7])
                (TensorExpr.quantize_active (TensorExpr.cabs (TensorExpr.input [4, 5])) 3))
              1)⟩ ≠ TensorExpr.input [4, 5] :=
  (inputs_overwritten_with_quantized ⟨1, 3, 7, false, false, false⟩ ⟨false, false⟩
    [4, 5] _ rfl).2.1

/-- C9: the rank-2 check precedes the gemmlowp check: a non-rank-2
input raises the generic rank exception even with the flag set, and the
`NotImplementedError` can only be observed on a rank-2 input. -/
theorem rank_check_precedes_gemmlowp_check
    (layer : DorefaDenseLayer) (env : VarEnv) (x : TensorExpr) :
    (ndims x ≠ some 2 → compile layer env x = Except.error CompileError.rankError) ∧
    (compile layer env x = Except.error CompileError.notImplementedError →
      ndims x = some 2) := by
  constructor
  · intro h
    simp [compile, h]
  · intro h
    by_cases h2 : ndims x = some 2
    · exact h2
    · simp [compile, h2] at h

/-- C9 witness: a rank-3 input with the gemmlowp flag enabled still
raises the rank error, not `NotImplementedError`. -/
theorem rank_check_precedes_gemmlowp_check_witness :
    compile ⟨1, 3, 100, false, true, true⟩ ⟨false, false⟩ (TensorExpr.input [2, 3, 4]) =
      Except.error CompileError.rankError :=
  (rank_check_precedes_gemmlowp_check ⟨1, 3, 100, false, true, true⟩ ⟨false, false⟩
    (TensorExpr.input [2, 3, 4])).1 (by decide)

end DorefaDense
